import Mathlib

/-!
Verification of the User Ledger & Referral Economy Store of the ghibli bot
repository (src/config.py, src/utils.py), as a shallow embedding.

The persisted JSON database is modelled by the structure `DB`.  Every
function of src/utils.py that does a `load_database()` / `save_database(db)`
round trip is embedded as a state-passing function: it receives the current
on-disk document (`disk : DB`) and returns its result together with the
document that is on disk after the call.  `load_database()` returns a fresh
copy of the on-disk document each time it is called (the Python code
re-reads the JSON file), so a function that loads the database, calls
helpers that themselves load and save, and then saves its own copy, writes a
stale snapshot — the embedding reproduces this faithfully.

Python dictionaries are modelled as association lists with insert-or-update
semantics (`setKey` / `lookupKey`).  The current calendar date
(`datetime.now().strftime("%Y-%m-%d")`) is passed in as a `today : String`
parameter; timestamps that the claims do not touch (join_date,
link_created_at, created_at, updated_at) are omitted.  Machine integers do
not occur: Python integers are unbounded and are modelled as `Int`.
-/

/-- The `referral` sub-dictionary of a user record (src/utils.py,
`get_user_schema`). -/
structure Referral where
  referral_code : String
  referred_by : Option String
  referred_users : List String
  total_referrals : Int
  bonus_claimed : Bool
  deriving DecidableEq

/-- A user record (src/utils.py, `get_user_schema`).  Timestamp fields that
no claim depends on are omitted. -/
structure UserData where
  user_id : String
  username : String
  first_name : String
  last_name : String
  role : String
  remaining_limit : Int
  total_generations : Int
  last_reset_date : String
  referral : Referral
  deriving DecidableEq

/-- One entry of `db["referrals"]["active_links"]`. -/
structure LinkInfo where
  user_id : String
  uses : Int
  deriving DecidableEq

/-- One entry of a top list (`db["stats"]["top_users"]` /
`db["stats"]["top_referrers"]`); `metric` is the value stored under the
`sort_key` field name. -/
structure TopEntry where
  user_id : String
  username : String
  first_name : String
  last_name : String
  metric : Int
  deriving DecidableEq

/-- Model of `db["stats"]` (src/utils.py, `get_database_schema`). -/
structure Stats where
  total_generations : Int
  total_users : Int
  total_referrals : Int
  top_users : List TopEntry
  top_referrers : List TopEntry
  deriving DecidableEq

/-- Model of `db["referrals"]` (src/utils.py, `get_database_schema`). -/
structure Referrals where
  active_links : List (String × LinkInfo)
  total_conversions : Int
  deriving DecidableEq

/-- The whole persisted document (src/utils.py, `get_database_schema`);
`meta` only holds timestamps and the version string and is omitted. -/
structure DB where
  users : List (String × UserData)
  stats : Stats
  referrals : Referrals
  deriving DecidableEq

/-- Python dict lookup `d[k]` / `k in d`. -/
def lookupKey (k : String) : List (String × α) → Option α
  | [] => none
  | (k', v) :: rest => if k' = k then some v else lookupKey k rest

/-- Python dict assignment `d[k] = v`: overwrite in place if present,
append otherwise. -/
def setKey (k : String) (v : α) : List (String × α) → List (String × α)
  | [] => [(k, v)]
  | (k', v') :: rest => if k' = k then (k, v) :: rest else (k', v') :: setKey k v rest

/-- Python truthiness of an optional string (`if x:`): `None` and `""` are
falsy. -/
def truthyStr : Option String → Bool
  | none => false
  | some s => s != ""

/-- Python `int(s)` on the canonical decimal strings produced by `str(id)`
(every stored `user_id` is such a string): fold the digits.  Defined by
structural recursion over the characters so that it evaluates inside the
kernel. -/
def strToNat (s : String) : Nat :=
  s.data.foldl (fun n c => n * 10 + (c.toNat - 48)) 0

/- Configuration values from src/config.py. -/

/-- Config value `FEATURE_CONFIG["daily_limit"]`. -/
def daily_limit : Int := 2

/-- Config value `FEATURE_CONFIG["vip_daily_limit"]`. -/
def vip_daily_limit : Int := 5

/-- Config value `REFERRAL_CONFIG["referrer_bonus"]`. -/
def referrer_bonus : Int := 2

/-- Config value `REFERRAL_CONFIG["referee_bonus"]`. -/
def referee_bonus : Int := 1

/-- Config value `REFERRAL_CONFIG["min_uses_for_extra_bonus"]`. -/
def min_uses_for_extra_bonus : Nat := 5

/-- Config value `REFERRAL_CONFIG["extra_bonus"]`. -/
def extra_bonus : Int := 3

/-- Config value `USER_ROLES["owner"]["user_ids"]`. -/
def owner_ids : List Nat := [123456789]

/-- Config value `USER_ROLES["admin"]["user_ids"]`. -/
def admin_ids : List Nat := [234567890, 345678901]

/-- Config value `USER_ROLES["moderator"]["user_ids"]`. -/
def moderator_ids : List Nat := [456789012, 567890123]

/-- Model of `get_database_schema` (src/utils.py lines 87-108): default shape of the
persisted document. -/
def get_database_schema : DB :=
  { users := []
    stats :=
      { total_generations := 0
        total_users := 0
        total_referrals := 0
        top_users := []
        top_referrers := [] }
    referrals := { active_links := [], total_conversions := 0 } }

/-- Model of `get_user_schema` (src/utils.py lines 110-136): default user record;
`last_reset_date` is initialised to the current date. -/
def get_user_schema (today : String) : UserData :=
  { user_id := ""
    username := ""
    first_name := ""
    last_name := ""
    role := "user"
    remaining_limit := daily_limit
    total_generations := 0
    last_reset_date := today
    referral :=
      { referral_code := ""
        referred_by := none
        referred_users := []
        total_referrals := 0
        bonus_claimed := false } }

/-- Model of `get_user_role` (src/utils.py lines 257-273): static configuration is
consulted in the order owner, admin, moderator; otherwise the stored
record's `role` field, defaulting to `"user"`.  The function loads the
database itself, so it takes the on-disk document. -/
def get_user_role (user_id : Nat) (disk : DB) : String :=
  if user_id ∈ owner_ids then "owner"
  else if user_id ∈ admin_ids then "admin"
  else if user_id ∈ moderator_ids then "moderator"
  else
    match lookupKey (toString user_id) disk.users with
    | some u => u.role
    | none => "user"

/-- Model of `get_user_data` (src/utils.py lines 208-235): loads the database,
creates a default record (and increments `total_users`, saving) if the user
is unknown; otherwise applies the daily quota reset, saving, when the stored
`last_reset_date` differs from today.  Returns the record and the on-disk
document after the call. -/
def get_user_data (today : String) (user_id : Nat) (disk : DB) : UserData × DB :=
  let user_id_str := toString user_id
  match lookupKey user_id_str disk.users with
  | none =>
    let user_data := { get_user_schema today with user_id := user_id_str }
    (user_data,
      { disk with
          users := setKey user_id_str user_data disk.users
          stats := { disk.stats with total_users := disk.stats.total_users + 1 } })
  | some user_data =>
    if user_data.last_reset_date ≠ today then
      let new_limit := if get_user_role user_id disk = "vip" then vip_daily_limit else daily_limit
      let user_data1 := { user_data with remaining_limit := new_limit, last_reset_date := today }
      (user_data1, { disk with users := setKey user_id_str user_data1 disk.users })
    else
      (user_data, disk)

/-- The two shapes of update dictionary that src/utils.py ever passes to
`update_user_data`: `{"remaining_limit": v}` and `{"referral": r}` (the
referral dictionary always carries all of its keys, so the nested
`dict.update` amounts to replacement). -/
inductive UpdateData where
  | remaining_limit (v : Int)
  | referral (r : Referral)
  deriving DecidableEq

/-- Application of an `UpdateData` to a user record, mirroring the key-wise
merge of `update_user_data`. -/
def applyUpdate (upd : UpdateData) (u : UserData) : UserData :=
  match upd with
  | .remaining_limit v => { u with remaining_limit := v }
  | .referral r => { u with referral := r }

/-- Model of `update_user_data` (src/utils.py lines 237-255): loads the database,
merges the update into an existing record and saves, or reports failure for
an unknown identity. -/
def update_user_data (user_id : Nat) (upd : UpdateData) (disk : DB) : Bool × DB :=
  match lookupKey (toString user_id) disk.users with
  | some u =>
    (true, { disk with users := setKey (toString user_id) (applyUpdate upd u) disk.users })
  | none => (false, disk)

/-- Model of `modify_user_limit` (src/utils.py lines 289-299): fetches the record via
`get_user_data`, clamps the new limit at zero, persists it via
`update_user_data`, and returns `(success, new_limit)`. -/
def modify_user_limit (today : String) (user_id : Nat) (amount : Int) (disk : DB) :
    (Bool × Int) × DB :=
  let gd := get_user_data today user_id disk
  let new_limit := max 0 (gd.1.remaining_limit + amount)
  let ud := update_user_data user_id (UpdateData.remaining_limit new_limit) gd.2
  ((ud.1, new_limit), ud.2)

/-- Model of `update_top_list` find-and-overwrite loop (src/utils.py lines 316-324):
the first entry with the given identity has its metric, username and
first_name overwritten; `none` when no entry matches. -/
def update_found (user_id : String) (user_data : UserData) (sort_key : UserData → Int) :
    List TopEntry → Option (List TopEntry)
  | [] => none
  | e :: rest =>
    if e.user_id = user_id then
      some ({ e with metric := sort_key user_data, username := user_data.username,
                     first_name := user_data.first_name } :: rest)
    else
      match update_found user_id user_data sort_key rest with
      | some rest' => some (e :: rest')
      | none => none

/-- One step of a stable descending insertion sort on the metric.  Python's
`sorted(key=..., reverse=True)` is a stable descending sort, and the output
of a stable sort is determined uniquely by the ordering, so this insertion
sort computes the same list. -/
def insertDesc (x : TopEntry) : List TopEntry → List TopEntry
  | [] => [x]
  | y :: ys => if x.metric < y.metric then y :: insertDesc x ys else x :: y :: ys

/-- Stable descending sort by metric (src/utils.py lines 337-341). -/
def sortDesc : List TopEntry → List TopEntry
  | [] => []
  | a :: l => insertDesc a (sortDesc l)

/-- Model of `update_top_list` (src/utils.py lines 314-344), as a pure function on
the named list, given the value of `user_data[sort_key]` (as the function
`sort_key`, applied only to the passed record): overwrite the first matching
entry or append a new one, sort descending by the sort key, truncate to
`max_entries`.  The Python subscripting of the sort key, which can raise
KeyError, is modelled by the wrapper below. -/
def update_top_list (lst : List TopEntry) (user_id : String) (user_data : UserData)
    (sort_key : UserData → Int) (max_entries : Nat) : List TopEntry :=
  let lst1 :=
    match update_found user_id user_data sort_key lst with
    | some l => l
    | none =>
      lst ++ [{ user_id := user_id, username := user_data.username,
                first_name := user_data.first_name, last_name := user_data.last_name,
                metric := sort_key user_data }]
  (sortDesc lst1).take max_entries

/-- Python subscript `user_data[key]` for an integer-valued top-level key of
a user record.  Per `get_user_schema` (src/utils.py lines 110-136) the only
integer-valued top-level keys are `remaining_limit` and
`total_generations`; `total_referrals` exists only nested inside the
`referral` sub-dictionary, and no code path ever adds it at top level
(`update_user_data` only writes keys the record already has), so
subscripting it raises KeyError, modelled as `none`. -/
def user_record_int_key (key : String) (u : UserData) : Option Int :=
  if key = "total_generations" then some u.total_generations
  else if key = "remaining_limit" then some u.remaining_limit
  else none

/-- Model of `update_top_list` as invoked with a sort-key *name*
(src/utils.py lines 314-344): both the overwrite branch (line 320) and the
append branch (line 333) evaluate `user_data[sort_key]` before mutating
anything, so a missing key raises KeyError (`none`) and leaves the list
untouched; otherwise the update runs with the looked-up value. -/
def update_top_list_py (lst : List TopEntry) (user_id : String) (user_data : UserData)
    (sort_key : String) (max_entries : Nat) : Option (List TopEntry) :=
  match user_record_int_key sort_key user_data with
  | none => none
  | some v => some (update_top_list lst user_id user_data (fun _ => v) max_entries)

/-- Model of `generate_referral_code` (src/utils.py lines 348-362).  The salt is the
bot name (`CONFIG["bot"]["name"] = "GhibliBotTelegram"`) concatenated with
`str(time.time())`, passed here as `now`; the md5-then-base64url digest step
is abstracted as the `hash` parameter, since no claim depends on the
concrete digest, only on the code being an 8-character function of the user
id and the issuance time. -/
def generate_referral_code (hash : String → String) (user_id : Nat) (now : String) : String :=
  let salt := "GhibliBotTelegram" ++ now
  let data := toString user_id ++ ":" ++ salt
  (hash data).take 8

/-- Model of `create_referral_link` (src/utils.py lines 364-394): loads a snapshot
`db`, fetches the user via `get_user_data` (which loads and may save on its
own), and, when the user record carries no code, generates one, persists it
into the user record via `update_user_data` (its own load-save round trip),
registers the code in the snapshot's `active_links` and saves the snapshot —
overwriting the document that `update_user_data` just wrote.  Returns the
code placed into the referral link (the claims concern the code; the
surrounding `https://t.me/...` formatting is dropped). -/
def create_referral_link (hash : String → String) (today now : String) (user_id : Nat)
    (disk : DB) : String × DB :=
  let db := disk
  let user_id_str := toString user_id
  let gd := get_user_data today user_id disk
  let user_data := gd.1
  if user_data.referral.referral_code = "" then
    let ref_code := generate_referral_code hash user_id now
    let referral1 := { user_data.referral with referral_code := ref_code }
    let _saved := update_user_data user_id (UpdateData.referral referral1) gd.2
    let db1 :=
      { db with referrals :=
          { db.referrals with
              active_links := setKey ref_code { user_id := user_id_str, uses := 0 }
                db.referrals.active_links } }
    (ref_code, db1)
  else
    (user_data.referral.referral_code, gd.2)

/-- Model of `process_referral` (src/utils.py lines 396-451): loads a snapshot `db`,
validates the code, rejects self-referral and an already-referred referee
(returning `some (false, none)` with the document as left by the checks),
then applies the bonuses and referral updates through `modify_user_limit` /
`update_user_data` (each of which loads and saves the document itself),
increments the link's uses and the global conversions on the in-memory
snapshot, re-checks the extra-bonus tier, and then calls `update_top_list`
on the snapshot with sort key `"total_referrals"` (line 448) — which
subscripts a key the user record does not have at top level and raises an
uncaught KeyError, so the final `save_database(db)` of the snapshot (line
450) and the `return True, referrer_data` (line 451) are never reached: the
result is `none` (the call raises) with the document as the per-helper
saves left it.  The `some` arm of the match below mirrors lines 448-451 as
written, but the KeyError arm is the one the program takes. -/
def process_referral (today : String) (referee_id : Nat) (ref_code : String) (disk : DB) :
    Option (Bool × Option UserData) × DB :=
  let db := disk
  match lookupKey ref_code db.referrals.active_links with
  | none => (some (false, none), disk)
  | some referral_info =>
    if toString referee_id = referral_info.user_id then (some (false, none), disk)
    else
      let referrer_id := referral_info.user_id
      let gd := get_user_data today referee_id disk
      let referee_data := gd.1
      if truthyStr referee_data.referral.referred_by then (some (false, none), gd.2)
      else
        let m1 := modify_user_limit today referee_id referee_bonus gd.2
        let referee_referral := { referee_data.referral with referred_by := some referrer_id }
        let u1 := update_user_data referee_id (UpdateData.referral referee_referral) m1.2
        let rid := strToNat referrer_id
        let gr := get_user_data today rid u1.2
        let referrer_data := gr.1
        let m2 := modify_user_limit today rid referrer_bonus gr.2
        let referred_users :=
          if toString referee_id ∈ referrer_data.referral.referred_users then
            referrer_data.referral.referred_users
          else
            referrer_data.referral.referred_users ++ [toString referee_id]
        let referrer_referral :=
          { referrer_data.referral with
              referred_users := referred_users
              total_referrals := referrer_data.referral.total_referrals + 1 }
        let u2 := update_user_data rid (UpdateData.referral referrer_referral) m2.2
        let db1 :=
          { db with referrals :=
              { active_links :=
                  setKey ref_code { referral_info with uses := referral_info.uses + 1 }
                    db.referrals.active_links
                total_conversions := db.referrals.total_conversions + 1 } }
        let step :=
          if referrer_referral.bonus_claimed = false ∧
              min_uses_for_extra_bonus ≤ referred_users.length then
            let m3 := modify_user_limit today rid extra_bonus u2.2
            let referrer_referral2 := { referrer_referral with bonus_claimed := true }
            let u3 := update_user_data rid (UpdateData.referral referrer_referral2) m3.2
            (({ referrer_data with referral := referrer_referral2 } : UserData), u3.2)
          else (({ referrer_data with referral := referrer_referral } : UserData), u2.2)
        let referrer_final := step.1
        match update_top_list_py db1.stats.top_referrers referrer_id referrer_final
            "total_referrals" 10 with
        | none => (none, step.2)
        | some new_top =>
          let db2 := { db1 with stats := { db1.stats with top_referrers := new_top } }
          (some (true, some referrer_final), db2)

/-!
File-system layer for `save_database` / `load_database` / `backup_database`
(src/utils.py lines 61-83, 138-204).  The contents of a file are either a
parsable document or garbage left by an interrupted write; the file system
tracks the primary document, the `.temp` file, the backup copies, and the
quarantined (`.corrupt.<timestamp>`) files.  Failures of the individual
primitive I/O operations of `save_database` are injected through a
`SaveStep → Bool` schedule; a failed write leaves `FileContent.corrupt`
behind.  Whether the auto-backup interval has elapsed (the `last_backup`
timestamp comparison) is abstracted as the boolean `backupDue`.
-/

/-- Contents of a file: a parsed store, or unparsable garbage. -/
inductive FileContent where
  | doc (d : DB)
  | corrupt
  deriving DecidableEq

/-- The file-system state visible to the persistence layer. -/
structure FS where
  db_file : Option FileContent
  temp_file : Option FileContent
  backups : List FileContent
  quarantined : List FileContent
  deriving DecidableEq

/-- The primitive I/O operations of `save_database` that can raise. -/
inductive SaveStep where
  | writeTemp
  | replace
  | backupCopy
  | rewriteMeta
  deriving DecidableEq

/-- Config value `STORAGE_CONFIG["auto_backup"]`. -/
def auto_backup : Bool := true

/-- Model of `backup_database` (src/utils.py lines 61-83): copies the primary
document into a timestamped backup file; catches its own exceptions and
returns `False`, leaving a garbage backup file behind on a failed copy. -/
def backup_database (f : SaveStep → Bool) (fs : FS) : Bool × FS :=
  match fs.db_file with
  | none => (false, fs)
  | some c =>
    if f SaveStep.backupCopy then
      (false, { fs with backups := fs.backups ++ [FileContent.corrupt] })
    else
      (true, { fs with backups := fs.backups ++ [c] })

/-- Model of `save_database` (src/utils.py lines 170-204): writes the document to the
`.temp` file, atomically replaces the primary document with it, and, when
auto-backup is enabled and due, runs `backup_database` and on its success
re-writes the primary document directly (a plain `open(db_file, "w")`, not
an atomic replace) with the refreshed backup metadata.  Any exception is
caught: the `.temp` file is removed if present and `False` is returned. -/
def save_database (f : SaveStep → Bool) (backupDue : Bool) (db : DB) (fs : FS) : Bool × FS :=
  if f SaveStep.writeTemp then (false, { fs with temp_file := none })
  else
    let fs1 : FS := { fs with temp_file := some (FileContent.doc db) }
    if f SaveStep.replace then (false, { fs1 with temp_file := none })
    else
      let fs2 : FS := { fs1 with db_file := some (FileContent.doc db), temp_file := none }
      if auto_backup && backupDue then
        let b := backup_database f fs2
        if b.1 then
          if f SaveStep.rewriteMeta then (false, { b.2 with db_file := some FileContent.corrupt })
          else (true, { b.2 with db_file := some (FileContent.doc db) })
        else (true, b.2)
      else (true, fs2)

/-- Model of `load_database` (src/utils.py lines 138-168): returns the parsed
document when it parses; renames an unparsable document aside to
`<db_file>.corrupt.<timestamp>` (quarantine) and falls through; when the
document is absent or was quarantined, builds the schema defaults, persists
them with `save_database`, and returns them. -/
def load_database (f : SaveStep → Bool) (backupDue : Bool) (fs : FS) : DB × FS :=
  match fs.db_file with
  | some (FileContent.doc db) => (db, fs)
  | some FileContent.corrupt =>
    let fs1 : FS :=
      { fs with db_file := none, quarantined := fs.quarantined ++ [FileContent.corrupt] }
    let r := save_database f backupDue get_database_schema fs1
    (get_database_schema, r.2)
  | none =>
    let r := save_database f backupDue get_database_schema fs
    (get_database_schema, r.2)

def today0 : String := "2025-06-01"

def refA : Referral :=
  { referral_code := "CODEA", referred_by := none, referred_users := [],
    total_referrals := 0, bonus_claimed := false }

def userA : UserData :=
  { get_user_schema today0 with
      user_id := "1"
      username := "alice"
      first_name := "Alice"
      referral := refA }

def userB : UserData :=
  { get_user_schema today0 with user_id := "2", username := "bob", first_name := "Bob" }

def disk_c1 : DB :=
  { users := [("1", userA), ("2", userB)]
    stats :=
      { total_generations := 0, total_users := 2, total_referrals := 0,
        top_users := [], top_referrers := [] }
    referrals :=
      { active_links := [("CODEA", { user_id := "1", uses := 0 })], total_conversions := 0 } }

/-- Referee of the C2 scenario before any redemption: no `referred_by`. -/
def userC : UserData :=
  { get_user_schema today0 with
      user_id := "3"
      username := "carol"
      first_name := "Carol"
      referral :=
        { referral_code := "CODEC", referred_by := none, referred_users := [],
          total_referrals := 0, bonus_claimed := false } }

/-- Store with two issued codes, `CODEA` owned by user 1 and `CODEC` owned
by user 3, and a not-yet-referred user 2. -/
def disk_c2 : DB :=
  { users := [("1", userA), ("2", userB), ("3", userC)]
    stats :=
      { total_generations := 0, total_users := 3, total_referrals := 0,
        top_users := [], top_referrers := [] }
    referrals :=
      { active_links := [("CODEA", { user_id := "1", uses := 0 }),
                         ("CODEC", { user_id := "3", uses := 0 })]
        total_conversions := 0 } }

/-- Referrer of the C3 scenario: four referred users already recorded,
extra bonus not yet claimed. -/
def userA4 : UserData :=
  { get_user_schema today0 with
      user_id := "1"
      username := "alice"
      first_name := "Alice"
      referral :=
        { referral_code := "CODEA", referred_by := none,
          referred_users := ["10", "11", "12", "13"],
          total_referrals := 4, bonus_claimed := false } }

/-- Fresh user record with the given id and today's reset date. -/
def freshUser (i : Nat) : UserData :=
  { get_user_schema today0 with user_id := toString i }

/-- Store for the bonus-tier scenario: referrer 1 has four referred users;
users 14 and 15 are present and not yet referred. -/
def disk_c3 : DB :=
  { users := [("1", userA4), ("14", freshUser 14), ("15", freshUser 15)]
    stats :=
      { total_generations := 0, total_users := 3, total_referrals := 0,
        top_users := [], top_referrers := [] }
    referrals :=
      { active_links := [("CODEA", { user_id := "1", uses := 4 })], total_conversions := 4 } }

/-- Store for the code-issuance scenario: user 1 exists and has no referral
code yet. -/
def disk_c4 : DB :=
  { users := [("1", freshUser 1)]
    stats :=
      { total_generations := 0, total_users := 1, total_referrals := 0,
        top_users := [], top_referrers := [] }
    referrals := { active_links := [], total_conversions := 0 } }

/-- A concrete stand-in for the md5-and-base64url digest of
`generate_referral_code`: any function from strings to strings fits the
abstraction; reversal makes codes differ for different timestamps. -/
def hashRev (s : String) : String :=
  String.mk s.data.reverse

/-- Referee of the C5 counterexample: already referred by user 1, and with a
stale `last_reset_date`, so that looking the record up applies the daily
reset. -/
def userB_referred : UserData :=
  { get_user_schema today0 with
      user_id := "2"
      username := "bob"
      first_name := "Bob"
      remaining_limit := 0
      last_reset_date := "2025-05-31"
      referral :=
        { referral_code := "", referred_by := some "1", referred_users := [],
          total_referrals := 0, bonus_claimed := false } }

/-- Store for the C5 counterexample: user 2 is already referred and carries
a stale reset date; `CODEC` belongs to user 3. -/
def disk_c5 : DB :=
  { users := [("2", userB_referred), ("3", userC)]
    stats :=
      { total_generations := 0, total_users := 2, total_referrals := 0,
        top_users := [], top_referrers := [] }
    referrals :=
      { active_links := [("CODEC", { user_id := "3", uses := 0 })], total_conversions := 0 } }

/-- Failure schedule that makes exactly the direct backup-metadata re-write
of `save_database` raise. -/
def failRewriteMeta (s : SaveStep) : Bool :=
  decide (s = SaveStep.rewriteMeta)

/-- Failure schedule under which every primitive I/O operation succeeds. -/
def noFail (_ : SaveStep) : Bool :=
  false

/-- File system holding a well-formed document, about to be overwritten. -/
def fs0 : FS :=
  { db_file := some (FileContent.doc disk_c1), temp_file := none,
    backups := [], quarantined := [] }

/-- File system holding an unparsable primary document. -/
def fs_corrupt : FS :=
  { db_file := some FileContent.corrupt, temp_file := none,
    backups := [], quarantined := [] }

/-- User record with `total_generations = i`, as fed to the generations
leaderboard in the C10 scenario. -/
def scenario_user (i : Nat) : UserData :=
  { get_user_schema today0 with
      user_id := toString i
      username := "u" ++ toString i
      first_name := "U" ++ toString i
      total_generations := Int.ofNat i }

/-- The generations leaderboard after inserting users 1..15 with distinct
generation counts 1..15, via `update_top_list` exactly as
`update_user_stats` invokes it. -/
def scenario15 : List TopEntry :=
  (List.range' 1 15).foldl
    (fun acc i =>
      update_top_list acc (toString i) (scenario_user i) (fun u => u.total_generations) 10)
    []

/-- The leaderboard entry that `update_top_list` appends for
`scenario_user i`. -/
def expected_entry (i : Nat) : TopEntry :=
  { user_id := toString i, username := "u" ++ toString i, first_name := "U" ++ toString i,
    last_name := "", metric := Int.ofNat i }

/-- The ten highest of the fifteen inserted users, descending. -/
def expected15 : List TopEntry :=
  ((List.range' 6 10).reverse).map expected_entry

/-- Descending sortedness by metric, the order `update_top_list` maintains. -/
def SortedDesc (l : List TopEntry) : Prop :=
  List.Pairwise (fun a b => b.metric ≤ a.metric) l

/-- The entry `update_top_list` appends when the identity is absent
(src/utils.py lines 327-334). -/
def appended_entry (uid : String) (u : UserData) (key : UserData → Int) : TopEntry :=
  { user_id := uid
    username := u.username
    first_name := u.first_name
    last_name := u.last_name
    metric := key u }

/-! Helper lemmas about the dictionary model. -/

theorem lookupKey_setKey_self (k : String) (v : α) (l : List (String × α)) :
    lookupKey k (setKey k v l) = some v := by
  induction l with
  | nil => simp [setKey, lookupKey]
  | cons p rest ih =>
    obtain ⟨k', v'⟩ := p
    by_cases h : k' = k
    · simp [setKey, lookupKey, h]
    · simp [setKey, lookupKey, h, ih]

theorem lookupKey_setKey_ne (k k' : String) (v : α) (l : List (String × α)) (h : k' ≠ k) :
    lookupKey k' (setKey k v l) = lookupKey k' l := by
  induction l with
  | nil => simp [setKey, lookupKey, Ne.symm h]
  | cons p rest ih =>
    obtain ⟨k0, v0⟩ := p
    by_cases h0 : k0 = k
    · subst h0
      simp [setKey, lookupKey, Ne.symm h]
    · simp [setKey, lookupKey, h0, ih]

/-! Case lemmas characterising `get_user_data`. -/

theorem get_user_data_of_none (today : String) (user_id : Nat) (disk : DB)
    (h : lookupKey (toString user_id) disk.users = none) :
    get_user_data today user_id disk =
      ({ get_user_schema today with user_id := toString user_id },
        { disk with
            users := setKey (toString user_id)
              { get_user_schema today with user_id := toString user_id } disk.users
            stats := { disk.stats with total_users := disk.stats.total_users + 1 } }) := by
  simp [get_user_data, h]

theorem get_user_data_of_some_eq (today : String) (user_id : Nat) (disk : DB) (u : UserData)
    (h : lookupKey (toString user_id) disk.users = some u) (hd : u.last_reset_date = today) :
    get_user_data today user_id disk = (u, disk) := by
  simp [get_user_data, h, hd]

theorem get_user_data_of_some_ne (today : String) (user_id : Nat) (disk : DB) (u : UserData)
    (h : lookupKey (toString user_id) disk.users = some u) (hd : u.last_reset_date ≠ today) :
    get_user_data today user_id disk =
      ({ u with
          remaining_limit := if get_user_role user_id disk = "vip" then vip_daily_limit
            else daily_limit
          last_reset_date := today },
        { disk with
            users := setKey (toString user_id)
              { u with
                  remaining_limit := if get_user_role user_id disk = "vip" then vip_daily_limit
                    else daily_limit
                  last_reset_date := today } disk.users }) := by
  simp [get_user_data, h, hd]

/-- After any `get_user_data` call, the returned record is what the returned
document stores under the identity. -/
theorem get_user_data_lookup (today : String) (user_id : Nat) (disk : DB) :
    lookupKey (toString user_id) ((get_user_data today user_id disk).2).users
      = some ((get_user_data today user_id disk).1) := by
  cases h : lookupKey (toString user_id) disk.users with
  | none =>
    rw [get_user_data_of_none today user_id disk h]
    exact lookupKey_setKey_self _ _ _
  | some u =>
    by_cases hd : u.last_reset_date = today
    · rw [get_user_data_of_some_eq today user_id disk u h hd]
      exact h
    · rw [get_user_data_of_some_ne today user_id disk u h hd]
      exact lookupKey_setKey_self _ _ _

/-- The returned record always carries today's reset date. -/
theorem get_user_data_date (today : String) (user_id : Nat) (disk : DB) :
    ((get_user_data today user_id disk).1).last_reset_date = today := by
  cases h : lookupKey (toString user_id) disk.users with
  | none =>
    rw [get_user_data_of_none today user_id disk h]
    rfl
  | some u =>
    by_cases hd : u.last_reset_date = today
    · rw [get_user_data_of_some_eq today user_id disk u h hd]
      exact hd
    · rw [get_user_data_of_some_ne today user_id disk u h hd]

set_option maxRecDepth 8000

/-- C1: falsified as stated.  A redemption is never committed with one save
of a single loaded Store: on the success path `process_referral` persists
each user-record effect through a separate per-helper load-save round trip
and then raises an uncaught KeyError inside the top-referrers
`update_top_list` call (src/utils.py line 448, subscripting the missing
top-level `total_referrals` key at lines 320/333) before the single
`save_database(db)` ever runs — the call returns no success, and the
persisted store afterwards holds the referee's bonus and `referred_by` and
the referrer's bonus, `referred_users` insertion and `total_referrals`
increment (committed piecemeal), while the link's `uses` increment, the
global conversions increment and the leaderboard update are lost. -/
theorem c1_redemption_not_committed_atomically :
    (process_referral today0 2 "CODEA" disk_c1).1 = none
    ∧ (lookupKey "2" ((process_referral today0 2 "CODEA" disk_c1).2).users).map
        (fun u => u.referral.referred_by) = some (some "1")
    ∧ (lookupKey "2" ((process_referral today0 2 "CODEA" disk_c1).2).users).map
        UserData.remaining_limit = some 3
    ∧ (lookupKey "1" ((process_referral today0 2 "CODEA" disk_c1).2).users).map
        UserData.remaining_limit = some 4
    ∧ (lookupKey "1" ((process_referral today0 2 "CODEA" disk_c1).2).users).map
        (fun u => u.referral.total_referrals) = some 1
    ∧ (lookupKey "1" ((process_referral today0 2 "CODEA" disk_c1).2).users).map
        (fun u => u.referral.referred_users) = some ["2"]
    ∧ lookupKey "CODEA" ((process_referral today0 2 "CODEA" disk_c1).2).referrals.active_links
        = some { user_id := "1", uses := 0 }
    ∧ ((process_referral today0 2 "CODEA" disk_c1).2).referrals.total_conversions = 0
    ∧ ((process_referral today0 2 "CODEA" disk_c1).2).stats.top_referrers = [] := by
  decide

/-- C2: confirmed in substance.  The first redemption durably records
`referred_by = "1"` through `update_user_data` before the success path
raises its KeyError, so a subsequent `redeem(2, "CODEC")` with a different
code owned by a different user returns a clean failure and user 2's
persisted `referred_by` remains the first referrer — a referee is referred
at most once, first writer wins. -/
theorem c2_second_redeem_rejected :
    (process_referral today0 2 "CODEA" disk_c2).1 = none
    ∧ (lookupKey "2" ((process_referral today0 2 "CODEA" disk_c2).2).users).map
        (fun u => u.referral.referred_by) = some (some "1")
    ∧ (process_referral today0 2 "CODEC" (process_referral today0 2 "CODEA" disk_c2).2).1
        = some (false, none)
    ∧ (lookupKey "2"
        ((process_referral today0 2 "CODEC"
            (process_referral today0 2 "CODEA" disk_c2).2).2).users).map
        (fun u => u.referral.referred_by) = some (some "1") := by
  decide

/-- C3: confirmed in substance.  The helper saves persist the tier state
before the success path's KeyError: the redemption by user 14 that takes
the referrer from four to five referred users grants the extra bonus
exactly then (persisted quota goes from 2 to 2 + 2 + 3 = 7 and
`bonus_claimed` flips to true), and the next redemption by user 15 sees the
persisted `bonus_claimed = true` and grants no further extra bonus (quota
goes to 9 = 7 + 2, the plain referrer bonus only, with six referred
users). -/
theorem c3_extra_bonus_fires_once :
    (process_referral today0 14 "CODEA" disk_c3).1 = none
    ∧ (lookupKey "1" ((process_referral today0 14 "CODEA" disk_c3).2).users).map
        (fun u => u.referral.bonus_claimed) = some true
    ∧ (lookupKey "1" ((process_referral today0 14 "CODEA" disk_c3).2).users).map
        (fun u => u.referral.referred_users) = some ["10", "11", "12", "13", "14"]
    ∧ (lookupKey "1" ((process_referral today0 14 "CODEA" disk_c3).2).users).map
        UserData.remaining_limit = some 7
    ∧ (lookupKey "1"
        ((process_referral today0 15 "CODEA"
            (process_referral today0 14 "CODEA" disk_c3).2).2).users).map
        (fun u => u.referral.bonus_claimed) = some true
    ∧ (lookupKey "1"
        ((process_referral today0 15 "CODEA"
            (process_referral today0 14 "CODEA" disk_c3).2).2).users).map
        (fun u => u.referral.referred_users)
        = some ["10", "11", "12", "13", "14", "15"]
    ∧ (lookupKey "1"
        ((process_referral today0 15 "CODEA"
            (process_referral today0 14 "CODEA" disk_c3).2).2).users).map
        UserData.remaining_limit = some 9 := by
  decide

/-- C4: falsified as stated.  `create_referral_link` persists the freshly
generated code into the user record and then saves the Store snapshot it
loaded at entry, whose user record still has no code — so the persisted
record keeps `referral_code = ""`, and a repeated call at a later issuance
time generates and registers a second, different code instead of returning
the first one. -/
theorem c4_issue_code_not_idempotent :
    (create_referral_link hashRev today0 "A" 1 disk_c4).1
        ≠ (create_referral_link hashRev today0 "B" 1
            (create_referral_link hashRev today0 "A" 1 disk_c4).2).1
    ∧ (lookupKey "1" ((create_referral_link hashRev today0 "A" 1 disk_c4).2).users).map
        (fun u => u.referral.referral_code) = some ""
    ∧ lookupKey (create_referral_link hashRev today0 "A" 1 disk_c4).1
        ((create_referral_link hashRev today0 "B" 1
            (create_referral_link hashRev today0 "A" 1 disk_c4).2).2).referrals.active_links
        = some { user_id := "1", uses := 0 }
    ∧ lookupKey
        (create_referral_link hashRev today0 "B" 1
            (create_referral_link hashRev today0 "A" 1 disk_c4).2).1
        ((create_referral_link hashRev today0 "B" 1
            (create_referral_link hashRev today0 "A" 1 disk_c4).2).2).referrals.active_links
        = some { user_id := "1", uses := 0 } := by
  decide

/-- C5 counterexample: a failing redemption (referee already referred) is
not always mutation-free — when the referee's stored `last_reset_date` is
stale, the `get_user_data` lookup inside `process_referral` applies and
persists the daily quota reset before the rejection, so the store after the
clean failure differs from the store before it. -/
theorem c5_failure_can_mutate_store :
    (process_referral today0 2 "CODEC" disk_c5).1 = some (false, none)
    ∧ (process_referral today0 2 "CODEC" disk_c5).2 ≠ disk_c5
    ∧ (lookupKey "2" ((process_referral today0 2 "CODEC" disk_c5).2).users).map
        UserData.remaining_limit = some 2
    ∧ (lookupKey "2" disk_c5.users).map UserData.remaining_limit = some 0 := by
  decide

/-- Subscripting the top-referrers sort key on any user record raises
KeyError: `total_referrals` is not a top-level key of a user record. -/
theorem user_record_int_key_total_referrals (u : UserData) :
    user_record_int_key "total_referrals" u = none := by
  simp [user_record_int_key]

/-- C5 (amended): `process_referral` rejects an unknown code, a
self-referral, and an already-referred referee, in that order; on the first
two failures the store is completely unchanged, and on the
already-referred failure the store changes at most by the referee lookup's
persisted daily-quota reset — in every failure case the referral data of
every user is exactly as before. -/
theorem c5_failure_no_referral_mutation (today : String) (referee_id : Nat) (ref_code : String)
    (disk : DB)
    (h : ((process_referral today referee_id ref_code disk).1).map Prod.fst = some false) :
    ((process_referral today referee_id ref_code disk).2 = disk
      ∨ (process_referral today referee_id ref_code disk).2
          = (get_user_data today referee_id disk).2)
    ∧ ∀ uid, (lookupKey uid ((process_referral today referee_id ref_code disk).2).users).map
        UserData.referral = (lookupKey uid disk.users).map UserData.referral := by
  cases hl : lookupKey ref_code disk.referrals.active_links with
  | none =>
    have he : process_referral today referee_id ref_code disk = (some (false, none), disk) := by
      simp [process_referral, hl]
    rw [he]
    exact ⟨Or.inl rfl, fun uid => rfl⟩
  | some info =>
    by_cases hself : toString referee_id = info.user_id
    · have he : process_referral today referee_id ref_code disk
          = (some (false, none), disk) := by
        simp [process_referral, hl, hself]
      rw [he]
      exact ⟨Or.inl rfl, fun uid => rfl⟩
    · cases hu : lookupKey (toString referee_id) disk.users with
      | none =>
        have hgd := get_user_data_of_none today referee_id disk hu
        have he : (process_referral today referee_id ref_code disk).1 = none := by
          simp [process_referral, hl, hself, hgd, truthyStr, get_user_schema,
            update_top_list_py, user_record_int_key_total_referrals]
        rw [he] at h
        simp at h
      | some u =>
        by_cases hd : u.last_reset_date = today
        · have hgd := get_user_data_of_some_eq today referee_id disk u hu hd
          cases ht : truthyStr u.referral.referred_by with
          | false =>
            have he : (process_referral today referee_id ref_code disk).1 = none := by
              simp [process_referral, hl, hself, hgd, ht,
                update_top_list_py, user_record_int_key_total_referrals]
            rw [he] at h
            simp at h
          | true =>
            have he : process_referral today referee_id ref_code disk
                = (some (false, none), disk) := by
              simp [process_referral, hl, hself, hgd, ht]
            rw [he]
            exact ⟨Or.inl rfl, fun uid => rfl⟩
        · have hgd := get_user_data_of_some_ne today referee_id disk u hu hd
          cases ht : truthyStr u.referral.referred_by with
          | false =>
            have he : (process_referral today referee_id ref_code disk).1 = none := by
              simp [process_referral, hl, hself, hgd, ht,
                update_top_list_py, user_record_int_key_total_referrals]
            rw [he] at h
            simp at h
          | true =>
            have he : process_referral today referee_id ref_code disk
                = (some (false, none), (get_user_data today referee_id disk).2) := by
              simp [process_referral, hl, hself, hgd, ht]
            rw [he]
            refine ⟨Or.inr rfl, fun uid => ?_⟩
            rw [hgd]
            by_cases huid : uid = toString referee_id
            · subst huid
              rw [show ({ disk with
                    users := setKey (toString referee_id)
                      { u with
                          remaining_limit := if get_user_role referee_id disk = "vip" then
                            vip_daily_limit else daily_limit
                          last_reset_date := today } disk.users } : DB).users
                  = setKey (toString referee_id)
                      { u with
                          remaining_limit := if get_user_role referee_id disk = "vip" then
                            vip_daily_limit else daily_limit
                          last_reset_date := today } disk.users from rfl]
              rw [lookupKey_setKey_self, hu]
              rfl
            · rw [show ({ disk with
                    users := setKey (toString referee_id)
                      { u with
                          remaining_limit := if get_user_role referee_id disk = "vip" then
                            vip_daily_limit else daily_limit
                          last_reset_date := today } disk.users } : DB).users
                  = setKey (toString referee_id)
                      { u with
                          remaining_limit := if get_user_role referee_id disk = "vip" then
                            vip_daily_limit else daily_limit
                          last_reset_date := today } disk.users from rfl]
              rw [lookupKey_setKey_ne _ _ _ _ huid]

/-- Witness for the amended C5 theorem: an unknown code on the default
store is rejected with the conclusion holding. -/
theorem c5_failure_no_referral_mutation_witness :
    ((process_referral today0 1 "NOPE" get_database_schema).2 = get_database_schema
      ∨ (process_referral today0 1 "NOPE" get_database_schema).2
          = (get_user_data today0 1 get_database_schema).2)
    ∧ ∀ uid, (lookupKey uid
        ((process_referral today0 1 "NOPE" get_database_schema).2).users).map
        UserData.referral = (lookupKey uid get_database_schema.users).map UserData.referral :=
  c5_failure_no_referral_mutation today0 1 "NOPE" get_database_schema (by decide)

/-- C2 is also backed generally: for any store in which the referee's
stored `referred_by` is a non-empty identity, a redemption attempt with any
code not owned by the referee returns a clean failure and every user's
referral data — the referee's `referred_by` included — is exactly as
before. -/
theorem redeem_rejected_when_already_referred (today : String) (referee_id : Nat)
    (ref_code : String) (disk : DB) (u : UserData)
    (hu : lookupKey (toString referee_id) disk.users = some u)
    (hb : truthyStr u.referral.referred_by = true)
    (info : LinkInfo) (hl : lookupKey ref_code disk.referrals.active_links = some info)
    (hself : toString referee_id ≠ info.user_id) :
    (process_referral today referee_id ref_code disk).1 = some (false, none)
    ∧ ∀ uid, (lookupKey uid ((process_referral today referee_id ref_code disk).2).users).map
        UserData.referral = (lookupKey uid disk.users).map UserData.referral := by
  by_cases hd : u.last_reset_date = today
  · have hgd := get_user_data_of_some_eq today referee_id disk u hu hd
    have he : process_referral today referee_id ref_code disk
        = (some (false, none), disk) := by
      simp [process_referral, hl, hself, hgd, hb]
    rw [he]
    exact ⟨rfl, fun uid => rfl⟩
  · have hgd := get_user_data_of_some_ne today referee_id disk u hu hd
    have he : process_referral today referee_id ref_code disk
        = (some (false, none), (get_user_data today referee_id disk).2) := by
      simp [process_referral, hl, hself, hgd, hb]
    rw [he]
    refine ⟨rfl, fun uid => ?_⟩
    rw [hgd]
    by_cases huid : uid = toString referee_id
    · subst huid
      rw [show ({ disk with
            users := setKey (toString referee_id)
              { u with
                  remaining_limit := if get_user_role referee_id disk = "vip" then
                    vip_daily_limit else daily_limit
                  last_reset_date := today } disk.users } : DB).users
          = setKey (toString referee_id)
              { u with
                  remaining_limit := if get_user_role referee_id disk = "vip" then
                    vip_daily_limit else daily_limit
                  last_reset_date := today } disk.users from rfl]
      rw [lookupKey_setKey_self, hu]
      rfl
    · rw [show ({ disk with
            users := setKey (toString referee_id)
              { u with
                  remaining_limit := if get_user_role referee_id disk = "vip" then
                    vip_daily_limit else daily_limit
                  last_reset_date := today } disk.users } : DB).users
          = setKey (toString referee_id)
              { u with
                  remaining_limit := if get_user_role referee_id disk = "vip" then
                    vip_daily_limit else daily_limit
                  last_reset_date := today } disk.users from rfl]
      rw [lookupKey_setKey_ne _ _ _ _ huid]

/-- C6: confirmed.  For an existing record, `get_user_data` resets
`remaining_limit` to the role-appropriate daily allowance (VIP 5, standard
2, with 5 > 2) and sets `last_reset_date` to today exactly when the stored
date differs from today (otherwise record and store are returned
unchanged), and a second call on the same date is the identity — the quota
is never changed a second time. -/
theorem c6_daily_reset_iff_date_differs (today : String) (user_id : Nat) (disk : DB)
    (u : UserData) (h : lookupKey (toString user_id) disk.users = some u) :
    ((get_user_data today user_id disk).1).last_reset_date = today
    ∧ (u.last_reset_date = today → get_user_data today user_id disk = (u, disk))
    ∧ (u.last_reset_date ≠ today →
        ((get_user_data today user_id disk).1).remaining_limit
            = (if get_user_role user_id disk = "vip" then vip_daily_limit else daily_limit)
        ∧ lookupKey (toString user_id) ((get_user_data today user_id disk).2).users
            = some ((get_user_data today user_id disk).1))
    ∧ get_user_data today user_id ((get_user_data today user_id disk).2)
        = get_user_data today user_id disk
    ∧ daily_limit < vip_daily_limit := by
  refine ⟨get_user_data_date today user_id disk, ?_, ?_, ?_, by decide⟩
  · intro hd
    exact get_user_data_of_some_eq today user_id disk u h hd
  · intro hd
    rw [get_user_data_of_some_ne today user_id disk u h hd]
    exact ⟨rfl, lookupKey_setKey_self _ _ _⟩
  · have he := get_user_data_of_some_eq today user_id ((get_user_data today user_id disk).2)
      ((get_user_data today user_id disk).1) (get_user_data_lookup today user_id disk)
      (get_user_data_date today user_id disk)
    rw [he]

/-- Witness for C6 at a concrete store: user 2 of `disk_c1` exists with
today's reset date, so both calls leave everything unchanged. -/
theorem c6_daily_reset_iff_date_differs_witness :
    ((get_user_data today0 2 disk_c1).1).last_reset_date = today0
    ∧ (userB.last_reset_date = today0 → get_user_data today0 2 disk_c1 = (userB, disk_c1))
    ∧ (userB.last_reset_date ≠ today0 →
        ((get_user_data today0 2 disk_c1).1).remaining_limit
            = (if get_user_role 2 disk_c1 = "vip" then vip_daily_limit else daily_limit)
        ∧ lookupKey "2" ((get_user_data today0 2 disk_c1).2).users
            = some ((get_user_data today0 2 disk_c1).1))
    ∧ get_user_data today0 2 ((get_user_data today0 2 disk_c1).2)
        = get_user_data today0 2 disk_c1
    ∧ daily_limit < vip_daily_limit :=
  c6_daily_reset_iff_date_differs today0 2 disk_c1 userB (by decide)

/-- C7: confirmed.  `modify_user_limit` always succeeds, returns exactly
`max 0 (remainingQuota + delta)` for the record as fetched at call time,
never returns a negative quota, and persists the clamped value as the
record's stored limit; on a record with quota 2 a delta of −1000 yields
`(true, 0)`. -/
theorem c7_modify_quota_clamps :
    (∀ (today : String) (user_id : Nat) (amount : Int) (disk : DB),
      (modify_user_limit today user_id amount disk).1.1 = true
      ∧ (modify_user_limit today user_id amount disk).1.2
          = max 0 ((get_user_data today user_id disk).1.remaining_limit + amount)
      ∧ 0 ≤ (modify_user_limit today user_id amount disk).1.2
      ∧ (lookupKey (toString user_id)
            ((modify_user_limit today user_id amount disk).2).users).map
          UserData.remaining_limit
          = some ((modify_user_limit today user_id amount disk).1.2))
    ∧ (modify_user_limit today0 2 (-1000) disk_c1).1 = (true, 0) := by
  constructor
  · intro today user_id amount disk
    have hm := get_user_data_lookup today user_id disk
    refine ⟨?_, rfl, le_max_left _ _, ?_⟩
    · simp [modify_user_limit, update_user_data, hm]
    · simp [modify_user_limit, update_user_data, hm, applyUpdate, lookupKey_setKey_self]
  · decide

/-- C8 counterexample: with an auto-backup due and the direct
backup-metadata re-write failing, `save_database` reports failure while the
previous on-disk document is gone — the primary document is left as
unparsable garbage, neither the old nor the new store. -/
theorem c8_failure_after_commit :
    (save_database failRewriteMeta true disk_c2 fs0).1 = false
    ∧ (save_database failRewriteMeta true disk_c2 fs0).2.db_file ≠ fs0.db_file
    ∧ (save_database failRewriteMeta true disk_c2 fs0).2.db_file
        ≠ some (FileContent.doc disk_c2)
    ∧ (save_database failRewriteMeta true disk_c2 fs0).2.db_file
        = some FileContent.corrupt := by
  decide

/-- C8 (amended): up to the atomic replacement, `save_database` is
crash-safe — a failure while writing the temporary file or replacing the
document surfaces as an error with the temporary artifact removed and the
previous document intact; on success the new document is fully committed;
but a failure in the auto-backup metadata phase, which re-writes the
primary document directly after the replacement, also surfaces as an error
while leaving either the already-committed document or a half-written one,
not the previous document. -/
theorem c8_save_characterization (f : SaveStep → Bool) (backupDue : Bool) (db : DB) (fs : FS) :
    ((save_database f backupDue db fs).1 = true →
        (save_database f backupDue db fs).2.db_file = some (FileContent.doc db)
        ∧ (save_database f backupDue db fs).2.temp_file = none)
    ∧ ((save_database f backupDue db fs).1 = false →
        (save_database f backupDue db fs).2.temp_file = none
        ∧ ((save_database f backupDue db fs).2.db_file = fs.db_file
            ∨ (save_database f backupDue db fs).2.db_file = some FileContent.corrupt))
    ∧ (f SaveStep.writeTemp = true ∨ f SaveStep.replace = true →
        (save_database f backupDue db fs).1 = false
        ∧ (save_database f backupDue db fs).2.db_file = fs.db_file) := by
  cases hw : f SaveStep.writeTemp <;> cases hr : f SaveStep.replace <;>
    cases hb : f SaveStep.backupCopy <;> cases hm : f SaveStep.rewriteMeta <;>
    cases backupDue <;>
    simp [save_database, backup_database, auto_backup, hw, hr, hb, hm]

/-- Witness for the amended C8 theorem: a failing temporary-file write on a
concrete file system reports failure and leaves the document intact. -/
theorem c8_save_characterization_witness :
    (save_database (fun s => decide (s = SaveStep.writeTemp)) true disk_c2 fs0).1 = false
    ∧ (save_database (fun s => decide (s = SaveStep.writeTemp)) true disk_c2 fs0).2.db_file
        = fs0.db_file :=
  (c8_save_characterization (fun s => decide (s = SaveStep.writeTemp)) true disk_c2 fs0).2.2
    (Or.inl (by decide))

/-- A fully successful `save_database` commits the document and leaves the
quarantine area untouched. -/
theorem save_database_noFail (backupDue : Bool) (db : DB) (fs : FS) :
    (save_database noFail backupDue db fs).1 = true
    ∧ (save_database noFail backupDue db fs).2.db_file = some (FileContent.doc db)
    ∧ (save_database noFail backupDue db fs).2.quarantined = fs.quarantined := by
  cases backupDue <;> simp [save_database, backup_database, noFail, auto_backup]

/-- C9: confirmed.  With I/O succeeding, `load_database` on an unparsable
document quarantines it (renames it aside, never deleting: the quarantine
area grows by exactly that document) and both returns and persists a fresh
default Store; on an absent document it constructs the schema defaults and
persists them. -/
theorem c9_load_recovery (fs : FS) (backupDue : Bool) :
    (fs.db_file = some FileContent.corrupt →
      (load_database noFail backupDue fs).1 = get_database_schema
      ∧ (load_database noFail backupDue fs).2.db_file
          = some (FileContent.doc get_database_schema)
      ∧ (load_database noFail backupDue fs).2.quarantined
          = fs.quarantined ++ [FileContent.corrupt])
    ∧ (fs.db_file = none →
      (load_database noFail backupDue fs).1 = get_database_schema
      ∧ (load_database noFail backupDue fs).2.db_file
          = some (FileContent.doc get_database_schema)
      ∧ (load_database noFail backupDue fs).2.quarantined = fs.quarantined) := by
  constructor
  · intro h
    have hs := save_database_noFail backupDue get_database_schema
      { fs with
          db_file := none
          quarantined := fs.quarantined ++ [FileContent.corrupt] }
    have he : load_database noFail backupDue fs
        = (get_database_schema,
            (save_database noFail backupDue get_database_schema
              { fs with
                  db_file := none
                  quarantined := fs.quarantined ++ [FileContent.corrupt] }).2) := by
      simp [load_database, h]
    rw [he]
    refine ⟨rfl, hs.2.1, ?_⟩
    rw [hs.2.2]
  · intro h
    have hs := save_database_noFail backupDue get_database_schema fs
    have he : load_database noFail backupDue fs
        = (get_database_schema,
            (save_database noFail backupDue get_database_schema fs).2) := by
      simp [load_database, h]
    rw [he]
    exact ⟨rfl, hs.2.1, hs.2.2⟩

/-- Witness for C9: a file system whose primary document is garbage is
recovered into the default store with the garbage quarantined. -/
theorem c9_load_recovery_witness :
    (load_database noFail false fs_corrupt).1 = get_database_schema
    ∧ (load_database noFail false fs_corrupt).2.db_file
        = some (FileContent.doc get_database_schema)
    ∧ (load_database noFail false fs_corrupt).2.quarantined
        = fs_corrupt.quarantined ++ [FileContent.corrupt] :=
  (c9_load_recovery fs_corrupt false).1 (by decide)

/-- Every member of `insertDesc x l` is `x` or a member of `l`. -/
theorem mem_insertDesc {x z : TopEntry} {l : List TopEntry} (h : z ∈ insertDesc x l) :
    z = x ∨ z ∈ l := by
  induction l with
  | nil => simpa [insertDesc] using h
  | cons y ys ih =>
    by_cases hc : x.metric < y.metric
    · rw [insertDesc, if_pos hc] at h
      rcases List.mem_cons.1 h with h1 | h2
      · exact Or.inr (by simp [h1])
      · rcases ih h2 with h3 | h4
        · exact Or.inl h3
        · exact Or.inr (List.mem_cons_of_mem _ h4)
    · rw [insertDesc, if_neg hc] at h
      rcases List.mem_cons.1 h with h1 | h2
      · exact Or.inl h1
      · exact Or.inr h2

/-- Insertion preserves descending sortedness. -/
theorem sortedDesc_insertDesc {x : TopEntry} {l : List TopEntry} (h : SortedDesc l) :
    SortedDesc (insertDesc x l) := by
  induction l with
  | nil => simp [insertDesc, SortedDesc]
  | cons y ys ih =>
    rcases List.pairwise_cons.1 h with ⟨hy, hys⟩
    by_cases hc : x.metric < y.metric
    · rw [insertDesc, if_pos hc]
      refine List.pairwise_cons.2 ⟨?_, ih hys⟩
      intro z hz
      rcases mem_insertDesc hz with rfl | hz2
      · exact le_of_lt hc
      · exact hy z hz2
    · rw [insertDesc, if_neg hc]
      refine List.pairwise_cons.2 ⟨?_, h⟩
      intro z hz
      rcases List.mem_cons.1 hz with rfl | hz2
      · exact not_lt.1 hc
      · exact le_trans (hy z hz2) (not_lt.1 hc)

/-- The insertion sort sorts descending by metric. -/
theorem sortedDesc_sortDesc (l : List TopEntry) : SortedDesc (sortDesc l) := by
  induction l with
  | nil => simp [sortDesc, SortedDesc]
  | cons a l ih => exact sortedDesc_insertDesc ih

/-- Insertion is a permutation of consing. -/
theorem perm_insertDesc (x : TopEntry) (l : List TopEntry) :
    List.Perm (insertDesc x l) (x :: l) := by
  induction l with
  | nil => rfl
  | cons y ys ih =>
    by_cases hc : x.metric < y.metric
    · rw [insertDesc, if_pos hc]
      exact (ih.cons y).trans (List.Perm.swap x y ys)
    · rw [insertDesc, if_neg hc]

/-- The insertion sort permutes its input. -/
theorem perm_sortDesc (l : List TopEntry) : List.Perm (sortDesc l) l := by
  induction l with
  | nil => rfl
  | cons a l ih => exact (perm_insertDesc a (sortDesc l)).trans (ih.cons a)

/-- Overwriting an existing entry keeps the identity column unchanged. -/
theorem update_found_map_user_id (uid : String) (u : UserData) (key : UserData → Int) :
    ∀ (lst l' : List TopEntry), update_found uid u key lst = some l' →
      l'.map TopEntry.user_id = lst.map TopEntry.user_id := by
  intro lst
  induction lst with
  | nil => intro l' h; exact Option.noConfusion h
  | cons e rest ih =>
    intro l' h
    by_cases hc : e.user_id = uid
    · rw [update_found, if_pos hc] at h
      obtain rfl := Option.some.inj h
      simp
    · rw [update_found, if_neg hc] at h
      cases hr : update_found uid u key rest with
      | none => rw [hr] at h; exact absurd h (by simp)
      | some rest' =>
        rw [hr] at h
        obtain rfl := Option.some.inj h
        simp [ih rest' hr]

/-- When no entry matches, the identity is absent from the list. -/
theorem update_found_none_not_mem (uid : String) (u : UserData) (key : UserData → Int) :
    ∀ lst : List TopEntry, update_found uid u key lst = none →
      uid ∉ lst.map TopEntry.user_id := by
  intro lst
  induction lst with
  | nil => intro _ hmem; simp at hmem
  | cons e rest ih =>
    intro h
    by_cases hc : e.user_id = uid
    · rw [update_found, if_pos hc] at h
      exact absurd h (by simp)
    · rw [update_found, if_neg hc] at h
      cases hr : update_found uid u key rest with
      | none =>
        intro hmem
        rw [List.map_cons] at hmem
        rcases List.mem_cons.1 hmem with h1 | h2
        · exact hc h1.symm
        · exact ih hr h2
      | some rest' => rw [hr] at h; exact absurd h (by simp)

/-- Sorting and truncating a list with distinct identities keeps the
identities distinct. -/
theorem nodup_take_sortDesc (l : List TopEntry) (h : (l.map TopEntry.user_id).Nodup) (n : Nat) :
    (((sortDesc l).take n).map TopEntry.user_id).Nodup := by
  have hperm : List.Perm ((sortDesc l).map TopEntry.user_id) (l.map TopEntry.user_id) :=
    (perm_sortDesc l).map _
  have hn : ((sortDesc l).map TopEntry.user_id).Nodup := hperm.nodup_iff.2 h
  have hsub : List.Sublist (((sortDesc l).take n).map TopEntry.user_id)
      ((sortDesc l).map TopEntry.user_id) := (List.take_sublist n _).map _
  exact hn.sublist hsub

/-- C10: confirmed.  After every `update_top_list` call the list is sorted
descending by the metric and holds at most ten entries; when the input list
has pairwise-distinct identities so does the output (an existing entry is
overwritten in place, otherwise a fresh entry is appended before sorting
and truncating); and inserting fifteen distinct users with distinct
generation counts leaves exactly the ten highest, descending. -/
theorem c10_leaderboard_invariants :
    (∀ (lst : List TopEntry) (uid : String) (u : UserData) (key : UserData → Int),
      SortedDesc (update_top_list lst uid u key 10))
    ∧ (∀ (lst : List TopEntry) (uid : String) (u : UserData) (key : UserData → Int),
      (update_top_list lst uid u key 10).length ≤ 10)
    ∧ (∀ (lst : List TopEntry) (uid : String) (u : UserData) (key : UserData → Int),
      (lst.map TopEntry.user_id).Nodup →
        ((update_top_list lst uid u key 10).map TopEntry.user_id).Nodup)
    ∧ scenario15 = expected15 := by
  refine ⟨?_, ?_, ?_, by decide⟩
  · intro lst uid u key
    exact List.Pairwise.sublist (List.take_sublist _ _) (sortedDesc_sortDesc _)
  · intro lst uid u key
    exact List.length_take_le _ _
  · intro lst uid u key h
    cases hf : update_found uid u key lst with
    | some l' =>
      have h1 : (l'.map TopEntry.user_id).Nodup := by
        rw [update_found_map_user_id uid u key lst l' hf]
        exact h
      have he : update_top_list lst uid u key 10 = (sortDesc l').take 10 := by
        simp [update_top_list, hf]
      rw [he]
      exact nodup_take_sortDesc l' h1 10
    | none =>
      have hnm := update_found_none_not_mem uid u key lst hf
      have h1 : ((lst ++ [appended_entry uid u key]).map TopEntry.user_id).Nodup := by
        rw [List.map_append]
        simp [List.nodup_append, h, hnm, appended_entry]
      have he : update_top_list lst uid u key 10
          = (sortDesc (lst ++ [appended_entry uid u key])).take 10 := by
        simp [update_top_list, hf, appended_entry]
      rw [he]
      exact nodup_take_sortDesc _ h1 10

/-- Witness for C10's hypothesis-bearing part at a concrete input: the
empty leaderboard has distinct identities and so does the result of one
insertion. -/
theorem c10_leaderboard_invariants_witness :
    (([] : List TopEntry).map TopEntry.user_id).Nodup
    ∧ ((update_top_list [] "1" (scenario_user 1)
          (fun u => u.total_generations) 10).map TopEntry.user_id).Nodup :=
  ⟨by decide,
    c10_leaderboard_invariants.2.2.1 [] "1" (scenario_user 1)
      (fun u => u.total_generations) (by decide)⟩
